import Mathlib

/-!
Verification of the `ynab-import` sync tool (`src/bin/sync-with-n26.rs`).

The file shallowly embeds the core pipeline of the binary:
* the day-window computation of `main` (lines 44-50),
* the CLI/file validation sequence of `main` (lines 43-77), as a trace-producing
  step function over an abstract environment,
* the `convert_transaction` closure (lines 110-151): category resolution,
  memo derivation and the bank-to-ledger record mapping,
* the reconciler (`ynab.sync`), which lives in the `ynab_sync` library crate and
  is not part of the sources here; it is modelled from the specification.

External collaborators (chrono date parsing, serde_json parsing, the HTTP
clients) are modelled as abstract inputs or as simple functions faithful to
their documented behaviour on the shapes the program uses.
-/

/-- A calendar date (`chrono::NaiveDate` restricted to non-negative years,
which is all the program ever handles). -/
structure NaiveDate where
  year : Nat
  month : Nat
  day : Nat
deriving DecidableEq, Repr

/-- Gregorian leap-year test. -/
def isLeap (y : Nat) : Bool :=
  (y % 4 == 0 && y % 100 != 0) || y % 400 == 0

/-- Number of days in month `m` of year `y`. -/
def daysInMonth (y m : Nat) : Nat :=
  if m == 2 then (if isLeap y then 29 else 28)
  else if m == 4 || m == 6 || m == 9 || m == 11 then 30
  else 31

/-- Days in year `y` strictly before month `m`. -/
def daysBeforeMonth (y m : Nat) : Nat :=
  (List.range m).foldl (fun acc k => if 1 ≤ k then acc + daysInMonth y k else acc) 0

/-- Day number of a date counted from 0001-01-01 (proleptic Gregorian), as an
integer so that differences of day numbers are the `chrono`
`signed_duration_since(..).num_days()` values used by `main`. -/
def dayNumber (d : NaiveDate) : Int :=
  ((d.year - 1) * 365 + (d.year - 1) / 4 - (d.year - 1) / 100 + (d.year - 1) / 400
    + daysBeforeMonth d.year d.month + (d.day - 1) : Int)

/-- Value of a list of decimal digit characters. -/
def digitsVal (cs : List Char) : Nat :=
  cs.foldl (fun acc c => acc * 10 + (c.toNat - '0'.toNat)) 0

/-- Modelled from the spec: `chrono::NaiveDate::parse_from_str(s, "%Y-%m-%d")`
is provided by the external `chrono` crate.  The spec pins its contract to
"fails with `InvalidDateFormat` if the start date string does not parse as
`YYYY-MM-DD`", so it is modelled as strict `YYYY-MM-DD` parsing of a valid
calendar date. -/
def parseDate (s : String) : Option NaiveDate :=
  match s.toList with
  | [y1, y2, y3, y4, '-', m1, m2, '-', d1, d2] =>
    if ([y1, y2, y3, y4, m1, m2, d1, d2].all Char.isDigit) then
      let y := digitsVal [y1, y2, y3, y4]
      let m := digitsVal [m1, m2]
      let d := digitsVal [d1, d2]
      if 1 ≤ m && m ≤ 12 && 1 ≤ d && d ≤ daysInMonth y m then
        some ⟨y, m, d⟩
      else none
    else none
  | _ => none

/-- `ErrorKind` of the run, after `ynab_sync::error::ErrorKind`.  The two
category-mapping variants are named as in the source; the remaining variants
stand for failures of the external collaborator calls made after validation. -/
inductive ErrorKind where
  | dateParse
  | argParseCategoryMappingCanNotRead (file : String)
  | argParseCategoryMappingCanNotParse (file : String)
  | validateCliFailed
  | ynabGetCategoriesFailed
  | ynabGetTransactionsFailed
  | n26NewFailed
  | n26GetCategoriesFailed
  | n26GetTransactionsFailed
  | syncFailed
deriving DecidableEq, Repr

/-- The argument-validation errors: those raised by `main` before any
collaborator call (spec taxonomy `ArgumentError`). -/
def ErrorKind.isArgumentError : ErrorKind → Bool
  | .dateParse => true
  | .argParseCategoryMappingCanNotRead _ => true
  | .argParseCategoryMappingCanNotParse _ => true
  | _ => false

/-- The day-window computation of `main` (lines 44-50):
`today.signed_duration_since(sync_from).num_days() + 1` after parsing
`--sync-from`, with a parse failure propagated as an error. -/
def windowCalculator (today : NaiveDate) (syncFrom : String) : Except ErrorKind Int :=
  match parseDate syncFrom with
  | none => .error .dateParse
  | some d => .ok (dayNumber today - dayNumber d + 1)

/-- A JSON value, after `serde_json::Value`.  Numbers are modelled as integers;
no claim depends on the numeric representation.  An object holds its entries as
an association list with unique keys, looked up by first match. -/
inductive Json where
  | null
  | bool (b : Bool)
  | num (n : Int)
  | str (s : String)
  | arr (xs : List Json)
  | obj (fields : List (String × Json))

/-- `serde_json::Value::as_object`: the entries when the value is an object,
`None` otherwise. -/
def Json.asObject : Json → Option (List (String × Json))
  | .obj fields => some fields
  | _ => none

/-- `serde_json::Value::as_str`: the string when the value is a string,
`None` otherwise (line 116 of the source). -/
def Json.asStr : Json → Option String
  | .str s => some s
  | _ => none

/-- One observable step of `main`: either one of the five input-validation
checks (lines 44, 57, 63, 67-70, 72-77) or one of the collaborator calls that
follow them (`validate_cli` and the network fetches / the final sync). -/
inductive Event where
  | checkDate
  | checkExists
  | checkRead
  | checkParse
  | checkObject
  | callValidateCli
  | callYnabGetCategories
  | callYnabGetTransactions
  | callN26New
  | callN26GetCategories
  | callN26GetTransactions
  | callSync
deriving DecidableEq, Repr

/-- Whether an event is one of the five input-validation checks. -/
def Event.isValidation : Event → Bool
  | .checkDate => true
  | .checkExists => true
  | .checkRead => true
  | .checkParse => true
  | .checkObject => true
  | _ => false

/-- Whether an event reaches an external collaborator.  All post-validation
steps are counted, which is conservative: `validate_cli` lives in the library
crate and may or may not touch the network. -/
def Event.isNetwork (e : Event) : Bool := !e.isValidation

/-- The five validation checks in the order `main` performs them. -/
def validationEvents : List Event :=
  [.checkDate, .checkExists, .checkRead, .checkParse, .checkObject]

/-- The inputs `main` draws from its surroundings: the CLI arguments, the clock,
the filesystem, the external JSON parser and the outcomes of the collaborator
calls.  Fields model, in order: `--sync-from`, `--n26-category-mapping`,
`Utc::now().naive_utc().date()`, `PathBuf::exists`, `read_to_string`,
`serde_json::from_str` on the contents read, and success of each later call. -/
structure Env where
  syncFrom : String
  categoryMappingFile : String
  today : NaiveDate
  fileExists : Bool
  readResult : Option String
  parsedJson : Option Json
  validateCliOk : Bool
  ynabGetCategoriesOk : Bool
  ynabGetTransactionsOk : Bool
  n26NewOk : Bool
  n26GetCategoriesOk : Bool
  n26GetTransactionsOk : Bool
  syncOk : Bool

/-- The collaborator-call phase of `main` (lines 85-167): `validate_cli`, the
two YNAB fetches, the N26 authentication and fetches, then `ynab.sync`, each
able to fail and truncate the run (the `?` operators in the source). -/
def networkPhase (env : Env) : List Event × Option ErrorKind :=
  if env.validateCliOk = false then
    ([.callValidateCli], some .validateCliFailed)
  else if env.ynabGetCategoriesOk = false then
    ([.callValidateCli, .callYnabGetCategories], some .ynabGetCategoriesFailed)
  else if env.ynabGetTransactionsOk = false then
    ([.callValidateCli, .callYnabGetCategories, .callYnabGetTransactions],
     some .ynabGetTransactionsFailed)
  else if env.n26NewOk = false then
    ([.callValidateCli, .callYnabGetCategories, .callYnabGetTransactions, .callN26New],
     some .n26NewFailed)
  else if env.n26GetCategoriesOk = false then
    ([.callValidateCli, .callYnabGetCategories, .callYnabGetTransactions, .callN26New,
      .callN26GetCategories],
     some .n26GetCategoriesFailed)
  else if env.n26GetTransactionsOk = false then
    ([.callValidateCli, .callYnabGetCategories, .callYnabGetTransactions, .callN26New,
      .callN26GetCategories, .callN26GetTransactions],
     some .n26GetTransactionsFailed)
  else if env.syncOk = false then
    ([.callValidateCli, .callYnabGetCategories, .callYnabGetTransactions, .callN26New,
      .callN26GetCategories, .callN26GetTransactions, .callSync],
     some .syncFailed)
  else
    ([.callValidateCli, .callYnabGetCategories, .callYnabGetTransactions, .callN26New,
      .callN26GetCategories, .callN26GetTransactions, .callSync],
     none)

/-- The control skeleton of `main` (lines 43-167): the sequence of
validation checks and collaborator calls it performs, with the error it stops
at, if any.  Each `?` in the source becomes a branch that truncates the
trace.  Data flowing between the steps (categories, transactions) is treated by
the dedicated definitions below; here only control and error flow matter. -/
def runMain (env : Env) : List Event × Option ErrorKind :=
  match parseDate env.syncFrom with
  | none => ([.checkDate], some .dateParse)
  | some _ =>
    if env.fileExists = false then
      ([.checkDate, .checkExists],
       some (.argParseCategoryMappingCanNotRead env.categoryMappingFile))
    else
      match env.readResult with
      | none =>
        ([.checkDate, .checkExists, .checkRead],
         some (.argParseCategoryMappingCanNotRead env.categoryMappingFile))
      | some _ =>
        match env.parsedJson with
        | none =>
          ([.checkDate, .checkExists, .checkRead, .checkParse],
           some (.argParseCategoryMappingCanNotParse env.categoryMappingFile))
        | some v =>
          match v.asObject with
          | none =>
            (validationEvents,
             some (.argParseCategoryMappingCanNotParse env.categoryMappingFile))
          | some _ =>
            (validationEvents ++ (networkPhase env).1, (networkPhase env).2)

/-- Modelled from the spec: the bank timestamp (`visible_ts` of
`ynab_sync::n26::Transaction`, a date+time value; the `n26` module is in the
library crate, not in these sources).  Only the calendar-day fields are read by
the formatting the program does. -/
structure Timestamp where
  year : Nat
  month : Nat
  day : Nat
  hour : Nat
  minute : Nat
  second : Nat
deriving DecidableEq, Repr

/-- Zero-pad a number to at least two digits, as `chrono`'s `%m` / `%d` do. -/
def pad2 (n : Nat) : String :=
  if n < 10 then "0" ++ toString n else toString n

/-- Zero-pad a number to at least four digits, as `chrono`'s `%Y` does for the
non-negative years handled here. -/
def pad4 (n : Nat) : String :=
  if n < 10 then "000" ++ toString n
  else if n < 100 then "00" ++ toString n
  else if n < 1000 then "0" ++ toString n
  else toString n

/-- `visible_ts.format("%Y-%m-%d").to_string()` (line 139): the timestamp
truncated to its calendar day, formatted `YYYY-MM-DD`. -/
def Timestamp.formatYmd (t : Timestamp) : String :=
  pad4 t.year ++ "-" ++ pad2 t.month ++ "-" ++ pad2 t.day

/-- Modelled from the spec: a bank transaction record
(`ynab_sync::n26::Transaction`; the `n26` module is in the library crate).
Fields are the ones `convert_transaction` reads: unique id, category code,
signed amount, timestamp, optional reference text, optional merchant name,
optional merchant city. -/
structure N26Transaction where
  id : String
  category : String
  amount : Int
  visible_ts : Timestamp
  reference_text : Option String
  merchant_name : Option String
  merchant_city : Option String
deriving DecidableEq, Repr

/-- `ynab_sync::ynab::TransactionCleared`. -/
inductive TransactionCleared where
  | cleared
  | uncleared
  | reconciled
deriving DecidableEq, Repr

/-- Modelled from the spec: a ledger category record
(`ynab_sync::ynab::Category`; the `ynab` module is in the library crate).  Only
its `id` is read (line 120). -/
structure Category where
  id : String
deriving DecidableEq, Repr

/-- Modelled from the spec: a ledger transaction record
(`ynab_sync::ynab::Transaction`; the `ynab` module is in the library crate),
with the fields `convert_transaction` constructs (lines 137-150). -/
structure YNABTransaction where
  account_id : String
  date : String
  amount : Int
  payee_id : Option String
  payee_name : Option String
  category_id : Option String
  memo : Option String
  cleared : TransactionCleared
  approved : Bool
  flag_color : Option String
  import_id : Option String
deriving DecidableEq, Repr

/-- The category-resolution chain of `convert_transaction` (lines 111-120):
bank category code → canonical name (`n26_categories`), canonical name →
mapping entry (`category_mapping`, a JSON object whose value must be a
string), ledger category name → category id (`ynab_categories`).  The indices
are read-only maps, embedded as association lists looked up by first match. -/
def resolveCategory (n26_categories : List (String × String))
    (category_mapping : List (String × Json))
    (ynab_categories : List (String × Category))
    (code : String) : Option String :=
  ((((n26_categories.lookup code).bind
      (fun x => category_mapping.lookup x)).bind
      Json.asStr).bind
      (fun x => ynab_categories.lookup x)).map Category.id

/-- The memo derivation of `convert_transaction` (lines 126-135): reference
text if present, else merchant name and city, else merchant name, else none. -/
def memoOf (t : N26Transaction) : Option String :=
  match t.reference_text with
  | some reference_text => some reference_text
  | none =>
    match t.merchant_name with
    | some merchant_name =>
      match t.merchant_city with
      | some merchant_city => some (merchant_name ++ " " ++ merchant_city)
      | none => some merchant_name
    | none => none

/-- The `convert_transaction` closure of `main` (lines 110-151): one bank
transaction becomes one ledger transaction. -/
def convert_transaction (n26_categories : List (String × String))
    (category_mapping : List (String × Json))
    (ynab_categories : List (String × Category))
    (account_id : String)
    (t : N26Transaction) : YNABTransaction :=
  let category := resolveCategory n26_categories category_mapping ynab_categories t.category
  let approved := category.isSome
  let memo := memoOf t
  { account_id := account_id
    date := t.visible_ts.formatYmd
    amount := t.amount
    payee_id := none
    payee_name := none
    category_id := category
    memo := memo
    cleared := .cleared
    approved := approved
    flag_color := none
    import_id := some t.id }

/-- A reconciliation operation: create a new ledger transaction, update the
entry identified by an existing transaction, or skip. -/
inductive Operation where
  | create (tx : YNABTransaction)
  | update (existing : YNABTransaction) (tx : YNABTransaction)
  | skip
deriving DecidableEq, Repr

/-- Modelled from the spec: the matching rule of the Reconciler (`ynab.sync`
lives in the library crate, not in these sources) — a candidate matches an
existing ledger transaction iff their import ids are both present and equal. -/
def matchesImportId (c e : YNABTransaction) : Bool :=
  match c.import_id, e.import_id with
  | some a, some b => a == b
  | _, _ => false

/-- Modelled from the spec: the force-update overwrite — the existing
transaction with its mutable fields (category, memo, approved, cleared)
replaced by the candidate's values, all identity fields kept. -/
def overwriteMutable (e c : YNABTransaction) : YNABTransaction :=
  { e with
    category_id := c.category_id
    memo := c.memo
    approved := c.approved
    cleared := c.cleared }

/-- Modelled from the spec: the per-candidate decision of the Reconciler —
no matching existing transaction yields Create; a match yields Skip when
`force_update` is false and Update (with the overwrite above) when it is
true. -/
def classifyCandidate (existing : List YNABTransaction) (force_update : Bool)
    (c : YNABTransaction) : Operation :=
  match existing.find? (fun e => matchesImportId c e) with
  | none => .create c
  | some e => if force_update then .update e (overwriteMutable e c) else .skip

/-- Modelled from the spec: the Reconciler (`ynab.sync`) — classify every
candidate against the existing ledger transactions of the window. -/
def reconcile (candidates existing : List YNABTransaction) (force_update : Bool) :
    List Operation :=
  candidates.map (classifyCandidate existing force_update)

/-! ## Theorems -/

/-- C2, counterexample: the start date 2020-01-02 parses as `YYYY-MM-DD`, yet
with today = 2020-01-01 the window computation of `main` returns `0 < 1` —
the claimed lower bound "always ≥ 1" does not hold for a start date after
today, since the code adds 1 to an unguarded signed day difference. -/
theorem windowCalculator_not_always_pos :
    parseDate "2020-01-02" = some ⟨2020, 1, 2⟩ ∧
    windowCalculator ⟨2020, 1, 1⟩ "2020-01-02" = Except.ok 0 ∧
    ¬ (1 ≤ (0 : Int)) :=
  ⟨rfl, rfl, by decide⟩

/-- C2, amended: for every start date that parses as `YYYY-MM-DD`, the window
computation returns `(today - start_date_in_days) + 1`, and this value is
≥ 1 whenever the start date is not after today; start = today gives 1 and
start = today - 9 days gives 10; an unparseable start date string fails with
the date-parse error. -/
theorem windowCalculator_spec (today : NaiveDate) (s : String) :
    (parseDate s = none → windowCalculator today s = Except.error ErrorKind.dateParse)
    ∧ (∀ d, parseDate s = some d →
        windowCalculator today s = Except.ok (dayNumber today - dayNumber d + 1)
        ∧ (dayNumber d ≤ dayNumber today → 1 ≤ dayNumber today - dayNumber d + 1))
    ∧ (parseDate s = some today → windowCalculator today s = Except.ok 1)
    ∧ (∀ d, parseDate s = some d → dayNumber today - dayNumber d = 9 →
        windowCalculator today s = Except.ok 10) := by
  refine ⟨?_, ?_, ?_, ?_⟩
  · intro h
    simp [windowCalculator, h]
  · intro d h
    refine ⟨by simp [windowCalculator, h], ?_⟩
    intro hle
    omega
  · intro h
    simp [windowCalculator, h]
  · intro d h h9
    simp only [windowCalculator, h]
    exact congrArg Except.ok (by omega)

/-- C2, witness: concrete instances of each conjunct of the amended window
contract. -/
theorem windowCalculator_spec_witness :
    windowCalculator ⟨2020, 1, 10⟩ "2020-01-10" = Except.ok 1
    ∧ windowCalculator ⟨2020, 1, 10⟩ "2020-01-01" = Except.ok 10
    ∧ windowCalculator ⟨2020, 1, 10⟩ "not-a-date" = Except.error ErrorKind.dateParse
    ∧ 1 ≤ dayNumber ⟨2020, 1, 10⟩ - dayNumber ⟨2020, 1, 1⟩ + 1 :=
  ⟨(windowCalculator_spec ⟨2020, 1, 10⟩ "2020-01-10").2.2.1 rfl,
   (windowCalculator_spec ⟨2020, 1, 10⟩ "2020-01-01").2.2.2 ⟨2020, 1, 1⟩ rfl (by decide),
   (windowCalculator_spec ⟨2020, 1, 10⟩ "not-a-date").1 rfl,
   ((windowCalculator_spec ⟨2020, 1, 10⟩ "2020-01-01").2.1 ⟨2020, 1, 1⟩ rfl).2 (by decide)⟩

/-- C3: the memo of the transformed transaction follows the priority order of
`convert_transaction` — reference text if present; else merchant name and
city joined by a space when both are present; else merchant name alone when
present; else absent. -/
theorem memo_precedence (n26_categories : List (String × String))
    (category_mapping : List (String × Json))
    (ynab_categories : List (String × Category))
    (account_id : String) (t : N26Transaction) :
    (∀ r, t.reference_text = some r →
      (convert_transaction n26_categories category_mapping ynab_categories account_id t).memo
        = some r)
    ∧ (∀ n c, t.reference_text = none → t.merchant_name = some n →
        t.merchant_city = some c →
      (convert_transaction n26_categories category_mapping ynab_categories account_id t).memo
        = some (n ++ " " ++ c))
    ∧ (∀ n, t.reference_text = none → t.merchant_name = some n →
        t.merchant_city = none →
      (convert_transaction n26_categories category_mapping ynab_categories account_id t).memo
        = some n)
    ∧ (t.reference_text = none → t.merchant_name = none →
      (convert_transaction n26_categories category_mapping ynab_categories account_id t).memo
        = none) := by
  refine ⟨?_, ?_, ?_, ?_⟩
  · intro r h
    simp [convert_transaction, memoOf, h]
  · intro n c h1 h2 h3
    simp [convert_transaction, memoOf, h1, h2, h3]
  · intro n h1 h2 h3
    simp [convert_transaction, memoOf, h1, h2, h3]
  · intro h1 h2
    simp [convert_transaction, memoOf, h1, h2]

/-- C3, witness: the four memo cases at concrete bank transactions. -/
theorem memo_precedence_witness :
    (convert_transaction [] [] [] "acct"
      ⟨"t1", "misc", 100, ⟨2020, 1, 2, 3, 4, 5⟩, some "X", some "Y", some "Z"⟩).memo = some "X"
    ∧ (convert_transaction [] [] [] "acct"
      ⟨"t2", "misc", 100, ⟨2020, 1, 2, 3, 4, 5⟩, none, some "Y", some "Z"⟩).memo = some "Y Z"
    ∧ (convert_transaction [] [] [] "acct"
      ⟨"t3", "misc", 100, ⟨2020, 1, 2, 3, 4, 5⟩, none, some "Y", none⟩).memo = some "Y"
    ∧ (convert_transaction [] [] [] "acct"
      ⟨"t4", "misc", 100, ⟨2020, 1, 2, 3, 4, 5⟩, none, none, none⟩).memo = none :=
  ⟨(memo_precedence [] [] [] "acct" _).1 "X" rfl,
   (memo_precedence [] [] [] "acct" _).2.1 "Y" "Z" rfl rfl rfl,
   (memo_precedence [] [] [] "acct" _).2.2.1 "Y" rfl rfl rfl,
   (memo_precedence [] [] [] "acct" _).2.2.2 rfl rfl⟩

/-- C4: the transformed transaction is approved iff category resolution
returned a category id; a bank category code absent from the bank category
index yields `approved = false` and `category_id = none`. -/
theorem approval_derivation (n26_categories : List (String × String))
    (category_mapping : List (String × Json))
    (ynab_categories : List (String × Category))
    (account_id : String) (t : N26Transaction) :
    ((convert_transaction n26_categories category_mapping ynab_categories account_id t).approved
        = true
      ↔ (convert_transaction n26_categories category_mapping ynab_categories account_id
          t).category_id.isSome = true)
    ∧ (n26_categories.lookup t.category = none →
      (convert_transaction n26_categories category_mapping ynab_categories account_id t).approved
          = false
        ∧ (convert_transaction n26_categories category_mapping ynab_categories account_id
            t).category_id = none) := by
  constructor
  · simp [convert_transaction]
  · intro h
    simp [convert_transaction, resolveCategory, h]

/-- C4, witness: a transaction whose category code is missing from the bank
index is unapproved and uncategorised. -/
theorem approval_derivation_witness :
    (convert_transaction [("food", "Food")] [] [] "acct"
      ⟨"t1", "misc", 100, ⟨2020, 1, 2, 3, 4, 5⟩, none, none, none⟩).approved = false
    ∧ (convert_transaction [("food", "Food")] [] [] "acct"
      ⟨"t1", "misc", 100, ⟨2020, 1, 2, 3, 4, 5⟩, none, none, none⟩).category_id = none :=
  (approval_derivation [("food", "Food")] [] [] "acct"
    ⟨"t1", "misc", 100, ⟨2020, 1, 2, 3, 4, 5⟩, none, none, none⟩).2 rfl

/-- C5: category resolution is total with result type `Option` — a missing
bank-index entry, a missing mapping entry, or a missing ledger-index entry
each short-circuit to `none`; no combination is an error. -/
theorem category_resolution_total (n26_categories : List (String × String))
    (category_mapping : List (String × Json))
    (ynab_categories : List (String × Category)) (code : String) :
    (n26_categories.lookup code = none →
      resolveCategory n26_categories category_mapping ynab_categories code = none)
    ∧ (∀ name, n26_categories.lookup code = some name →
        category_mapping.lookup name = none →
      resolveCategory n26_categories category_mapping ynab_categories code = none)
    ∧ (∀ name j s, n26_categories.lookup code = some name →
        category_mapping.lookup name = some j → j.asStr = some s →
        ynab_categories.lookup s = none →
      resolveCategory n26_categories category_mapping ynab_categories code = none) := by
  refine ⟨?_, ?_, ?_⟩
  · intro h
    simp [resolveCategory, h]
  · intro name h1 h2
    simp [resolveCategory, h1, h2]
  · intro name j s h1 h2 h3 h4
    simp [resolveCategory, h1, h2, h3, h4]

/-- C5, witness: each of the three missing-entry cases at concrete indices. -/
theorem category_resolution_total_witness :
    resolveCategory [] [("Food", Json.str "Groceries")] [("Groceries", ⟨"c1"⟩)] "food" = none
    ∧ resolveCategory [("food", "Food")] [] [("Groceries", ⟨"c1"⟩)] "food" = none
    ∧ resolveCategory [("food", "Food")] [("Food", Json.str "Groceries")] [] "food" = none :=
  ⟨(category_resolution_total [] [("Food", Json.str "Groceries")]
      [("Groceries", ⟨"c1"⟩)] "food").1 rfl,
   (category_resolution_total [("food", "Food")] [] [("Groceries", ⟨"c1"⟩)] "food").2.1
      "Food" rfl rfl,
   (category_resolution_total [("food", "Food")] [("Food", Json.str "Groceries")] [] "food").2.2
      "Food" (Json.str "Groceries") "Groceries" rfl rfl rfl rfl⟩

/-- C9: the transformation is a total function whose result always has
`cleared = Cleared`, no payee id or name, no flag color, `import_id` equal to
the bank transaction's id verbatim, and a date that is the bank timestamp
truncated to its calendar day formatted `YYYY-MM-DD` (only the year, month and
day fields of the timestamp are read). -/
theorem transformer_fixed_fields (n26_categories : List (String × String))
    (category_mapping : List (String × Json))
    (ynab_categories : List (String × Category))
    (account_id : String) (t : N26Transaction) :
    (convert_transaction n26_categories category_mapping ynab_categories account_id t).cleared
        = TransactionCleared.cleared
    ∧ (convert_transaction n26_categories category_mapping ynab_categories account_id
        t).payee_id = none
    ∧ (convert_transaction n26_categories category_mapping ynab_categories account_id
        t).payee_name = none
    ∧ (convert_transaction n26_categories category_mapping ynab_categories account_id
        t).flag_color = none
    ∧ (convert_transaction n26_categories category_mapping ynab_categories account_id
        t).import_id = some t.id
    ∧ (convert_transaction n26_categories category_mapping ynab_categories account_id
        t).account_id = account_id
    ∧ (convert_transaction n26_categories category_mapping ynab_categories account_id
        t).amount = t.amount
    ∧ (convert_transaction n26_categories category_mapping ynab_categories account_id
        t).date
        = pad4 t.visible_ts.year ++ "-" ++ pad2 t.visible_ts.month ++ "-"
            ++ pad2 t.visible_ts.day :=
  ⟨rfl, rfl, rfl, rfl, rfl, rfl, rfl, rfl⟩

/-- C10: a mapping entry whose JSON value is not a string behaves exactly like
a missing mapping entry — category resolution yields `none`, hence the
transformed transaction is unapproved with no category, and no error
arises. -/
theorem nonstring_mapping_value (n26_categories : List (String × String))
    (category_mapping : List (String × Json))
    (ynab_categories : List (String × Category))
    (account_id : String) (t : N26Transaction) (name : String) (j : Json)
    (h1 : n26_categories.lookup t.category = some name)
    (h2 : category_mapping.lookup name = some j)
    (h3 : j.asStr = none) :
    resolveCategory n26_categories category_mapping ynab_categories t.category = none
    ∧ (convert_transaction n26_categories category_mapping ynab_categories account_id
        t).category_id = none
    ∧ (convert_transaction n26_categories category_mapping ynab_categories account_id
        t).approved = false := by
  have hres : resolveCategory n26_categories category_mapping ynab_categories t.category
      = none := by
    simp [resolveCategory, h1, h2, h3]
  exact ⟨hres, by simp [convert_transaction, hres], by simp [convert_transaction, hres]⟩

/-- C10, witness: a mapping entry holding a JSON number is treated as
missing. -/
theorem nonstring_mapping_value_witness :
    resolveCategory [("food", "Food")] [("Food", Json.num 3)] [("Groceries", ⟨"c1"⟩)] "food"
        = none
    ∧ (convert_transaction [("food", "Food")] [("Food", Json.num 3)] [("Groceries", ⟨"c1"⟩)]
        "acct" ⟨"t1", "food", 100, ⟨2020, 1, 2, 3, 4, 5⟩, none, none, none⟩).category_id = none
    ∧ (convert_transaction [("food", "Food")] [("Food", Json.num 3)] [("Groceries", ⟨"c1"⟩)]
        "acct" ⟨"t1", "food", 100, ⟨2020, 1, 2, 3, 4, 5⟩, none, none, none⟩).approved = false :=
  nonstring_mapping_value [("food", "Food")] [("Food", Json.num 3)] [("Groceries", ⟨"c1"⟩)]
    "acct" ⟨"t1", "food", 100, ⟨2020, 1, 2, 3, 4, 5⟩, none, none, none⟩
    "Food" (Json.num 3) rfl rfl rfl

/-- C1: idempotence of the reconciler — for a transaction set T already fully
synced (so every member carries an import id, as every transformed transaction
does), `reconcile T T false` emits only Skip operations: a second run over an
overlapping window without force-update creates and updates nothing already
present. -/
theorem reconcile_idempotent (T : List YNABTransaction)
    (h : ∀ t ∈ T, t.import_id.isSome = true) :
    ∀ op ∈ reconcile T T false, op = Operation.skip := by
  intro op hop
  unfold reconcile at hop
  rw [List.mem_map] at hop
  obtain ⟨c, hc, rfl⟩ := hop
  obtain ⟨a, ha⟩ := Option.isSome_iff_exists.mp (h c hc)
  have hcc : matchesImportId c c = true := by
    unfold matchesImportId
    rw [ha]
    simp
  have hfind : (T.find? (fun e => matchesImportId c e)).isSome :=
    List.find?_isSome.mpr ⟨c, hc, hcc⟩
  obtain ⟨e, he⟩ := Option.isSome_iff_exists.mp hfind
  unfold classifyCandidate
  rw [he]
  simp

/-- C1, witness: a concrete already-synced singleton set reconciles to
Skip. -/
theorem reconcile_idempotent_witness :
    classifyCandidate
      [{ account_id := "acct", date := "2020-01-02", amount := 100, payee_id := none,
         payee_name := none, category_id := none, memo := none,
         cleared := TransactionCleared.cleared, approved := true, flag_color := none,
         import_id := some "abc" }] false
      { account_id := "acct", date := "2020-01-02", amount := 100, payee_id := none,
        payee_name := none, category_id := none, memo := none,
        cleared := TransactionCleared.cleared, approved := true, flag_color := none,
        import_id := some "abc" } = Operation.skip :=
  reconcile_idempotent
    [{ account_id := "acct", date := "2020-01-02", amount := 100, payee_id := none,
       payee_name := none, category_id := none, memo := none,
       cleared := TransactionCleared.cleared, approved := true, flag_color := none,
       import_id := some "abc" }]
    (by decide) _ (by simp [reconcile])

/-- C8: the reconciler matches a candidate to an existing transaction iff both
ids for import are present and equal; an unmatched candidate yields Create; a
matched candidate yields Skip when `force_update` is false and, when it is
true, Update of the matched existing entry with only the mutable fields
(category, memo, approved, cleared) taken from the candidate and every
identity field kept from the existing entry; the operation list is the
per-candidate classification in candidate order. -/
theorem reconcile_policy (candidates existing : List YNABTransaction)
    (force_update : Bool) :
    (∀ c e, matchesImportId c e = true
      ↔ ∃ s, c.import_id = some s ∧ e.import_id = some s)
    ∧ reconcile candidates existing force_update
        = candidates.map (classifyCandidate existing force_update)
    ∧ (∀ c, existing.find? (fun e => matchesImportId c e) = none →
        classifyCandidate existing force_update c = Operation.create c)
    ∧ (∀ c e, existing.find? (fun e2 => matchesImportId c e2) = some e →
        force_update = false → classifyCandidate existing force_update c = Operation.skip)
    ∧ (∀ c e, existing.find? (fun e2 => matchesImportId c e2) = some e →
        force_update = true →
        classifyCandidate existing force_update c
          = Operation.update e (overwriteMutable e c))
    ∧ (∀ c e, (overwriteMutable e c).category_id = c.category_id
        ∧ (overwriteMutable e c).memo = c.memo
        ∧ (overwriteMutable e c).approved = c.approved
        ∧ (overwriteMutable e c).cleared = c.cleared
        ∧ (overwriteMutable e c).account_id = e.account_id
        ∧ (overwriteMutable e c).date = e.date
        ∧ (overwriteMutable e c).amount = e.amount
        ∧ (overwriteMutable e c).payee_id = e.payee_id
        ∧ (overwriteMutable e c).payee_name = e.payee_name
        ∧ (overwriteMutable e c).flag_color = e.flag_color
        ∧ (overwriteMutable e c).import_id = e.import_id) := by
  refine ⟨?_, rfl, ?_, ?_, ?_, ?_⟩
  · intro c e
    unfold matchesImportId
    rcases hc : c.import_id with _ | a <;> rcases he : e.import_id with _ | b <;> simp
    exact eq_comm
  · intro c h
    unfold classifyCandidate
    rw [h]
  · intro c e h hf
    unfold classifyCandidate
    rw [h, hf]
    simp
  · intro c e h hf
    unfold classifyCandidate
    rw [h, hf]
    simp
  · intro c e
    exact ⟨rfl, rfl, rfl, rfl, rfl, rfl, rfl, rfl, rfl, rfl, rfl⟩

/-- A concrete candidate with import id "abc" and category C2, used to
instantiate the reconciler policy. -/
def txCandidate : YNABTransaction :=
  { account_id := "acct", date := "2020-01-02", amount := 100, payee_id := none,
    payee_name := none, category_id := some "C2", memo := some "new memo",
    cleared := TransactionCleared.cleared, approved := true, flag_color := none,
    import_id := some "abc" }

/-- A concrete existing ledger transaction with import id "abc" and category
C1, used to instantiate the reconciler policy. -/
def txExisting : YNABTransaction :=
  { account_id := "acct", date := "2020-01-02", amount := 100, payee_id := none,
    payee_name := none, category_id := some "C1", memo := none,
    cleared := TransactionCleared.uncleared, approved := false, flag_color := none,
    import_id := some "abc" }

/-- A concrete candidate with import id "new1" matching nothing. -/
def txNew : YNABTransaction :=
  { account_id := "acct", date := "2020-01-03", amount := -250, payee_id := none,
    payee_name := none, category_id := none, memo := none,
    cleared := TransactionCleared.cleared, approved := false, flag_color := none,
    import_id := some "new1" }

/-- C8, witness: the spec's three scenarios — force-update overwrites the
matched entry's category to C2, no force-update skips it, and an unmatched
candidate against an empty ledger is created. -/
theorem reconcile_policy_witness :
    classifyCandidate [txExisting] true txCandidate
        = Operation.update txExisting (overwriteMutable txExisting txCandidate)
    ∧ (overwriteMutable txExisting txCandidate).category_id = some "C2"
    ∧ classifyCandidate [txExisting] false txCandidate = Operation.skip
    ∧ classifyCandidate [] false txNew = Operation.create txNew :=
  ⟨(reconcile_policy [txCandidate] [txExisting] true).2.2.2.2.1 txCandidate txExisting
      rfl rfl,
   ((reconcile_policy [txCandidate] [txExisting] true).2.2.2.2.2 txCandidate txExisting).1,
   (reconcile_policy [txCandidate] [txExisting] false).2.2.2.1 txCandidate txExisting
      rfl rfl,
   (reconcile_policy [txNew] [] false).2.2.1 txNew rfl⟩

/-- Every event of the collaborator-call phase is a collaborator call, never a
validation check. -/
lemma networkPhase_no_validation (env : Env) :
    ((networkPhase env).1).all (fun e => !e.isValidation) = true := by
  unfold networkPhase
  split_ifs <;> decide

/-- The collaborator-call phase never raises an argument-validation error. -/
lemma networkPhase_no_argument_error (env : Env) (e : ErrorKind)
    (h : (networkPhase env).2 = some e) : e.isArgumentError = false := by
  unfold networkPhase at h
  split_ifs at h <;> simp at h <;> subst h <;> decide

/-- A concrete environment whose start date does not parse. -/
def envBadDate : Env :=
  { syncFrom := "nope", categoryMappingFile := "mapping.json", today := ⟨2020, 1, 10⟩,
    fileExists := true, readResult := some "{}", parsedJson := some (Json.obj []),
    validateCliOk := true, ynabGetCategoriesOk := true, ynabGetTransactionsOk := true,
    n26NewOk := true, n26GetCategoriesOk := true, n26GetTransactionsOk := true,
    syncOk := true }

/-- A concrete environment whose mapping file does not exist. -/
def envNoFile : Env :=
  { syncFrom := "2020-01-01", categoryMappingFile := "mapping.json", today := ⟨2020, 1, 10⟩,
    fileExists := false, readResult := none, parsedJson := none,
    validateCliOk := true, ynabGetCategoriesOk := true, ynabGetTransactionsOk := true,
    n26NewOk := true, n26GetCategoriesOk := true, n26GetTransactionsOk := true,
    syncOk := true }

/-- A concrete environment whose mapping file contents are not JSON. -/
def envBadJson : Env :=
  { syncFrom := "2020-01-01", categoryMappingFile := "mapping.json", today := ⟨2020, 1, 10⟩,
    fileExists := true, readResult := some "not json", parsedJson := none,
    validateCliOk := true, ynabGetCategoriesOk := true, ynabGetTransactionsOk := true,
    n26NewOk := true, n26GetCategoriesOk := true, n26GetTransactionsOk := true,
    syncOk := true }

/-- A concrete environment whose mapping file holds a JSON array at top
level. -/
def envArrayJson : Env :=
  { syncFrom := "2020-01-01", categoryMappingFile := "mapping.json", today := ⟨2020, 1, 10⟩,
    fileExists := true, readResult := some "[]", parsedJson := some (Json.arr []),
    validateCliOk := true, ynabGetCategoriesOk := true, ynabGetTransactionsOk := true,
    n26NewOk := true, n26GetCategoriesOk := true, n26GetTransactionsOk := true,
    syncOk := true }

/-- C6: with a well-formed start date, a non-existent mapping file stops the
run with the mapping-unreadable error, and mapping contents that fail to parse
as JSON or whose top level is not an object stop it with the mapping-invalid
error; in each case the trace contains no collaborator call. -/
theorem mapping_file_validation (env : Env) (d : NaiveDate)
    (hd : parseDate env.syncFrom = some d) :
    (env.fileExists = false →
      runMain env = ([Event.checkDate, Event.checkExists],
          some (ErrorKind.argParseCategoryMappingCanNotRead env.categoryMappingFile))
        ∧ (runMain env).1.any Event.isNetwork = false)
    ∧ (∀ s, env.fileExists = true → env.readResult = some s → env.parsedJson = none →
      runMain env = ([Event.checkDate, Event.checkExists, Event.checkRead, Event.checkParse],
          some (ErrorKind.argParseCategoryMappingCanNotParse env.categoryMappingFile))
        ∧ (runMain env).1.any Event.isNetwork = false)
    ∧ (∀ s v, env.fileExists = true → env.readResult = some s → env.parsedJson = some v →
        v.asObject = none →
      runMain env = (validationEvents,
          some (ErrorKind.argParseCategoryMappingCanNotParse env.categoryMappingFile))
        ∧ (runMain env).1.any Event.isNetwork = false) := by
  refine ⟨?_, ?_, ?_⟩
  · intro hfe
    have hrun : runMain env = ([Event.checkDate, Event.checkExists],
        some (ErrorKind.argParseCategoryMappingCanNotRead env.categoryMappingFile)) := by
      simp [runMain, hd, hfe]
    exact ⟨hrun, by rw [hrun]; exact of_decide_eq_true rfl⟩
  · intro s hfe hr hj
    have hrun : runMain env
        = ([Event.checkDate, Event.checkExists, Event.checkRead, Event.checkParse],
           some (ErrorKind.argParseCategoryMappingCanNotParse env.categoryMappingFile)) := by
      simp [runMain, hd, hfe, hr, hj]
    exact ⟨hrun, by rw [hrun]; exact of_decide_eq_true rfl⟩
  · intro s v hfe hr hj ho
    have hrun : runMain env = (validationEvents,
        some (ErrorKind.argParseCategoryMappingCanNotParse env.categoryMappingFile)) := by
      simp [runMain, hd, hfe, hr, hj, ho]
    exact ⟨hrun, by rw [hrun]; exact of_decide_eq_true rfl⟩

/-- C6, witness: the three rejection scenarios at concrete environments. -/
theorem mapping_file_validation_witness :
    (runMain envNoFile = ([Event.checkDate, Event.checkExists],
        some (ErrorKind.argParseCategoryMappingCanNotRead "mapping.json"))
      ∧ (runMain envNoFile).1.any Event.isNetwork = false)
    ∧ (runMain envBadJson
        = ([Event.checkDate, Event.checkExists, Event.checkRead, Event.checkParse],
           some (ErrorKind.argParseCategoryMappingCanNotParse "mapping.json"))
      ∧ (runMain envBadJson).1.any Event.isNetwork = false)
    ∧ (runMain envArrayJson = (validationEvents,
        some (ErrorKind.argParseCategoryMappingCanNotParse "mapping.json"))
      ∧ (runMain envArrayJson).1.any Event.isNetwork = false) :=
  ⟨(mapping_file_validation envNoFile ⟨2020, 1, 1⟩ rfl).1 rfl,
   (mapping_file_validation envBadJson ⟨2020, 1, 1⟩ rfl).2.1 "not json" rfl rfl rfl,
   (mapping_file_validation envArrayJson ⟨2020, 1, 1⟩ rfl).2.2 "[]" (Json.arr [])
     rfl rfl rfl rfl⟩

/-- C7: in every environment, the run's trace starts with a prefix of the five
validation checks in their fixed order (date format, file existence, file
readability, JSON parse, top-level-is-object), everything after that prefix is
a collaborator call, a trace reaching any collaborator call has completed all
five validations first, and a run stopped by an argument-validation error has
made no collaborator call. -/
theorem validation_before_network (env : Env) :
    (∃ k, k ≤ 5 ∧ (runMain env).1.take k = validationEvents.take k
      ∧ ((runMain env).1.drop k).all (fun e => !e.isValidation) = true
      ∧ ((runMain env).1.any Event.isNetwork = true →
          (runMain env).1.take 5 = validationEvents))
    ∧ (∀ e, (runMain env).2 = some e → e.isArgumentError = true →
        (runMain env).1.any Event.isNetwork = false) := by
  have hnv := networkPhase_no_validation env
  have hne := networkPhase_no_argument_error env
  unfold runMain
  split
  · exact ⟨⟨1, of_decide_eq_true rfl⟩, fun e _ _ => of_decide_eq_true rfl⟩
  · split_ifs with hfe
    · exact ⟨⟨2, of_decide_eq_true rfl⟩, fun e _ _ => of_decide_eq_true rfl⟩
    · split
      · exact ⟨⟨3, of_decide_eq_true rfl⟩, fun e _ _ => of_decide_eq_true rfl⟩
      · split
        · exact ⟨⟨4, of_decide_eq_true rfl⟩, fun e _ _ => of_decide_eq_true rfl⟩
        · split
          · exact ⟨⟨5, of_decide_eq_true rfl⟩, fun e _ _ => of_decide_eq_true rfl⟩
          · constructor
            · refine ⟨5, by omega, ?_, ?_, ?_⟩
              · have h5 : (5 : Nat) = validationEvents.length := rfl
                rw [h5, List.take_left, List.take_of_length_le (le_refl _)]
              · have h5 : (5 : Nat) = validationEvents.length := rfl
                rw [h5, List.drop_left]
                exact hnv
              · intro _
                have h5 : (5 : Nat) = validationEvents.length := rfl
                rw [h5, List.take_left]
            · intro e h harg
              have hfalse := hne e h
              rw [hfalse] at harg
              exact absurd harg (by decide)

/-- C7, witness: a failed date validation makes no collaborator call. -/
theorem validation_before_network_witness :
    (runMain envBadDate).1.any Event.isNetwork = false :=
  (validation_before_network envBadDate).2 ErrorKind.dateParse rfl rfl
